import Mathlib

/-!
Shallow embedding of the Plant Lore browser script (src/app.js).

JavaScript numbers are modelled as exact rationals; a value read from a
missing JSON field (JS undefined) is modelled as Option.none, and the NaN
produced by arithmetic on undefined is modelled as Option.none as well.
Strings are rendered with the en-US digit grouping that
Number.prototype.toLocaleString produces in the reference locale.
-/

attribute [local semireducible] Rat.mul Rat.add Rat.sub Rat.inv Rat.ofScientific

namespace PlantLore

/-- Insert a comma before every third digit, processing a reversed digit
list; mirrors the en-US grouping used by Number.prototype.toLocaleString. -/
def revCommas : List Char → Nat → List Char
  | [], _ => []
  | c :: cs, k =>
    if k ≠ 0 ∧ k % 3 = 0 then ',' :: c :: revCommas cs (k + 1)
    else c :: revCommas cs (k + 1)

/-- Decimal string of a natural number with en-US thousands separators. -/
def natToCommaString (n : Nat) : String :=
  String.mk ((revCommas (toString n).data.reverse 0).reverse)

/-- Model of Number.prototype.toLocaleString on an integer value
(en-US grouping). -/
def toLocaleString (i : Int) : String :=
  if i < 0 then "-" ++ natToCommaString i.natAbs else natToCommaString i.natAbs

/-- Writes the natural number n as a fixed-point decimal string with f
fractional digits (n is the value scaled by 10 ^ f). -/
def formatFixed (n f : Nat) : String :=
  let ds := (toString n).data
  let ds := List.replicate (f + 1 - ds.length) '0' ++ ds
  if f = 0 then String.mk ds
  else String.mk (ds.take (ds.length - f)) ++ "." ++ String.mk (ds.drop (ds.length - f))

/-- Model of Number.prototype.toFixed: the sign is taken first, then the
scaled magnitude is rounded to the nearest integer, ties toward the larger
value, as the ECMAScript specification prescribes.  For a nonnegative
rational a / b this integer is (2 * a * 10 ^ f + b) / (2 * b) under floor
division. -/
def jsToFixed (q : ℚ) (f : Nat) : String :=
  let sign := if q < 0 then "-" else ""
  let m : Nat := (2 * q.num.natAbs * 10 ^ f + q.den) / (2 * q.den)
  sign ++ formatFixed m f

/-- Multiplication where the left operand may be JS undefined: undefined
times a number is NaN, modelled as none. -/
def jsMulOpt (x : Option ℚ) (k : ℚ) : Option ℚ := x.map (· * k)

/-- toFixed applied to a possibly-NaN value: NaN.toFixed gives "NaN". -/
def jsToFixedOpt (x : Option ℚ) (f : Nat) : String :=
  match x with
  | none => "NaN"
  | some q => jsToFixed q f

/-- String interpolation of a possibly-undefined value: JS renders the
undefined value as the text "undefined". -/
def renderOpt {α : Type} (f : α → String) : Option α → String
  | none => "undefined"
  | some a => f a

example : toLocaleString 150000 = "150,000" := by decide
example : toLocaleString 2000 = "2,000" := by decide
example : toLocaleString 500 = "500" := by decide
example : toLocaleString 1234567 = "1,234,567" := by decide
example : jsToFixed ((8 : ℚ) / 100 * 100) 2 = "8.00" := by decide
example : jsToFixed ((3333 : ℚ) / 100) 2 = "33.33" := by decide
example : jsToFixed ((2 : ℚ) / 10 * 100) 1 = "20.0" := by decide
example : jsToFixed ((15 : ℚ) / 100) 3 = "0.150" := by decide
example : jsToFixed ((-125 : ℚ) / 100) 1 = "-1.3" := by decide

/-! ## The DOM model -/

/-- A value written into a display slot: either the textContent of an
element, or a style.width percentage (the script always writes widths as a
numeric value followed by a percent sign; none records a NaN width). -/
inductive SlotVal where
  | text (s : String)
  | width (v : Option ℚ)
  deriving DecidableEq, Repr

/-- One rendered word-item entry: the text of the two spans the script
builds through innerHTML (word text and count text). -/
structure WordItem where
  wordText : String
  countText : String
  deriving DecidableEq, Repr

/-- An SVG element appended by createVennDiagram, with the attributes the
script sets.  The svg root and its children are flattened into one list in
document order. -/
inductive SvgElem where
  | svgRoot (width height : ℚ)
  | circle (cx cy r : ℚ) (cls fill : String)
  | text (x y : ℚ) (cls anchor : String) (fill fontSize : Option String)
      (content : String)
  deriving DecidableEq, Repr

/-- The page state the script writes into: simple display slots addressed
by element id, plus the four container elements that receive children. -/
structure DomState where
  slots : List (String × SlotVal)
  folkardTopWords : List WordItem
  shakespeareTopWords : List WordItem
  sharedWords : List WordItem
  overlapChart : List SvgElem
  deriving DecidableEq, Repr

/-- A DOM with no slot written and every container empty. -/
def emptyDom : DomState := ⟨[], [], [], [], []⟩

/-- Assigning textContent or style.width on the element with this id; the
newest write shadows older ones (lookup returns the first match). -/
def setSlot (s : DomState) (id : String) (v : SlotVal) : DomState :=
  { s with slots := (id, v) :: s.slots }

/-- The value currently held by a display slot, none when never written. -/
def getSlot (s : DomState) (id : String) : Option SlotVal :=
  List.lookup id s.slots

/-! ## The analysis document

The dynamic structures mirror a parsed JSON value as the script accesses
it: every field may be absent (JS undefined).  The strict structures give
the expected AnalysisDocument shape of spec section 3. -/

/-- A top_words entry as the script reads it (fields may be absent). -/
structure DWordCount where
  word : Option String
  count : Option Int
  deriving DecidableEq, Repr

/-- A top_shared_words entry as the script reads it. -/
structure DSharedWord where
  word : Option String
  combined_count : Option Int
  deriving DecidableEq, Repr

/-- A sentiment record as the script reads it. -/
structure DSentiment where
  positive : Option ℚ
  negative : Option ℚ
  neutral : Option ℚ
  compound : Option ℚ
  deriving DecidableEq, Repr

/-- One texts[] entry as the script reads it. -/
structure DTextStats where
  total_words : Option Int
  unique_words : Option Int
  lexical_diversity : Option ℚ
  sentiment : Option DSentiment
  top_words : Option (List DWordCount)
  deriving DecidableEq, Repr

/-- The comparison record as the script reads it. -/
structure DComparison where
  overlap_percentage : Option ℚ
  total_shared_words : Option Int
  unique_to_folkard : Option Int
  unique_to_shakespeare : Option Int
  top_shared_words : Option (List DSharedWord)
  deriving DecidableEq, Repr

/-- The parsed analysis.json value as the script reads it. -/
structure DDoc where
  texts : Option (List DTextStats)
  comparison : Option DComparison
  deriving DecidableEq, Repr

/-- A well-formed WordCount of the expected shape. -/
structure WordCount where
  word : String
  count : Int
  deriving DecidableEq, Repr

/-- A well-formed shared-word entry of the expected shape. -/
structure SharedWord where
  word : String
  combined_count : Int
  deriving DecidableEq, Repr

/-- A well-formed SentimentBreakdown of the expected shape. -/
structure SentimentBreakdown where
  positive : ℚ
  negative : ℚ
  neutral : ℚ
  compound : ℚ
  deriving DecidableEq, Repr

/-- A well-formed TextStats of the expected shape. -/
structure TextStats where
  total_words : Int
  unique_words : Int
  lexical_diversity : ℚ
  sentiment : SentimentBreakdown
  top_words : List WordCount
  deriving DecidableEq, Repr

/-- A well-formed ComparisonStats of the expected shape. -/
structure ComparisonStats where
  overlap_percentage : ℚ
  total_shared_words : Int
  unique_to_folkard : Int
  unique_to_shakespeare : Int
  top_shared_words : List SharedWord
  deriving DecidableEq, Repr

/-- View a well-formed WordCount as a parsed JSON record. -/
def WordCount.toDyn (w : WordCount) : DWordCount := ⟨some w.word, some w.count⟩

/-- View a well-formed shared word as a parsed JSON record. -/
def SharedWord.toDyn (w : SharedWord) : DSharedWord :=
  ⟨some w.word, some w.combined_count⟩

/-- View a well-formed sentiment record as a parsed JSON record. -/
def SentimentBreakdown.toDyn (sb : SentimentBreakdown) : DSentiment :=
  ⟨some sb.positive, some sb.negative, some sb.neutral, some sb.compound⟩

/-- View a well-formed TextStats as a parsed JSON record. -/
def TextStats.toDyn (t : TextStats) : DTextStats :=
  ⟨some t.total_words, some t.unique_words, some t.lexical_diversity,
    some t.sentiment.toDyn, some (t.top_words.map WordCount.toDyn)⟩

/-- View a well-formed ComparisonStats as a parsed JSON record. -/
def ComparisonStats.toDyn (c : ComparisonStats) : DComparison :=
  ⟨some c.overlap_percentage, some c.total_shared_words,
    some c.unique_to_folkard, some c.unique_to_shakespeare,
    some (c.top_shared_words.map SharedWord.toDyn)⟩

/-- The parsed JSON document of the expected shape built from two
well-formed TextStats (texts[0], texts[1]) and one ComparisonStats. -/
def mkDoc (t0 t1 : TextStats) (c : ComparisonStats) : DDoc :=
  ⟨some [t0.toDyn, t1.toDyn], some c.toDyn⟩

/-- Modelled from the spec, section 3: decides whether a parsed JSON value
has the expected AnalysisDocument shape — a texts list of exactly two
fully-populated TextStats records plus one fully-populated
ComparisonStats record. -/
def wellFormedDoc (d : DDoc) : Bool :=
  match d.texts, d.comparison with
  | some ts, some c =>
    ts.length == 2
      && ts.all (fun t =>
        t.total_words.isSome && t.unique_words.isSome
          && t.lexical_diversity.isSome
          && (match t.sentiment with
              | some sb =>
                sb.positive.isSome && sb.negative.isSome
                  && sb.neutral.isSome && sb.compound.isSome
              | none => false)
          && (match t.top_words with
              | some ws => ws.all (fun w => w.word.isSome && w.count.isSome)
              | none => false))
      && c.overlap_percentage.isSome && c.total_shared_words.isSome
      && c.unique_to_folkard.isSome && c.unique_to_shakespeare.isSome
      && (match c.top_shared_words with
          | some ws => ws.all (fun w => w.word.isSome && w.combined_count.isSome)
          | none => false)
  | _, _ => false

/-! ## View populators

Each populator mirrors the statement order of its source function.  A pair
(state, threw) is returned: threw records a TypeError raised by a property
access or method call on an undefined value; the writes performed before
the throw persist, exactly as in the script. -/

/-- The two innerHTML spans of one top-words entry. -/
def mkWordItem (it : DWordCount) : WordItem :=
  ⟨renderOpt id it.word, renderOpt (fun n : Int => toString n) it.count⟩

/-- The two innerHTML spans of one shared-words entry. -/
def mkSharedItem (it : DSharedWord) : WordItem :=
  ⟨renderOpt id it.word, renderOpt (fun n : Int => toString n) it.combined_count⟩

/-- Embedding of populateFolkardView (src/app.js lines 46-78).  Reads
texts[0] and writes the folkard display slots in source order, then
appends the first 30 top_words entries to the folkard-top-words
container. -/
def populateFolkardView (d : DDoc) (s : DomState) : DomState × Bool :=
  match d.texts with
  | none => (s, true)
  | some ts =>
  match ts.get? 0 with
  | none => (s, true)
  | some td =>
  match td.total_words with
  | none => (s, true)
  | some tw =>
  let s := setSlot s "folkard-total-words" (.text (toLocaleString tw))
  match td.unique_words with
  | none => (s, true)
  | some uw =>
  let s := setSlot s "folkard-unique-words" (.text (toLocaleString uw))
  let s := setSlot s "folkard-lexical-diversity"
    (.text (jsToFixedOpt (jsMulOpt td.lexical_diversity 100) 2 ++ "%"))
  match td.sentiment with
  | none => (s, true)
  | some sent =>
  let s := setSlot s "folkard-sent-pos" (.width (jsMulOpt sent.positive 100))
  let s := setSlot s "folkard-sent-pos-val"
    (.text (jsToFixedOpt (jsMulOpt sent.positive 100) 1 ++ "%"))
  let s := setSlot s "folkard-sent-neg" (.width (jsMulOpt sent.negative 100))
  let s := setSlot s "folkard-sent-neg-val"
    (.text (jsToFixedOpt (jsMulOpt sent.negative 100) 1 ++ "%"))
  let s := setSlot s "folkard-sent-neu" (.width (jsMulOpt sent.neutral 100))
  let s := setSlot s "folkard-sent-neu-val"
    (.text (jsToFixedOpt (jsMulOpt sent.neutral 100) 1 ++ "%"))
  match sent.compound with
  | none => (s, true)
  | some cp =>
  let s := setSlot s "folkard-sent-compound" (.text (jsToFixed cp 3))
  match td.top_words with
  | none => (s, true)
  | some ws =>
  ({ s with folkardTopWords :=
      s.folkardTopWords ++ (ws.take 30).map mkWordItem }, false)

/-- Embedding of populateShakespeareView (src/app.js lines 81-113).  The
same slot writes as the folkard populator, on texts[1] and the
shakespeare element ids. -/
def populateShakespeareView (d : DDoc) (s : DomState) : DomState × Bool :=
  match d.texts with
  | none => (s, true)
  | some ts =>
  match ts.get? 1 with
  | none => (s, true)
  | some td =>
  match td.total_words with
  | none => (s, true)
  | some tw =>
  let s := setSlot s "shakespeare-total-words" (.text (toLocaleString tw))
  match td.unique_words with
  | none => (s, true)
  | some uw =>
  let s := setSlot s "shakespeare-unique-words" (.text (toLocaleString uw))
  let s := setSlot s "shakespeare-lexical-diversity"
    (.text (jsToFixedOpt (jsMulOpt td.lexical_diversity 100) 2 ++ "%"))
  match td.sentiment with
  | none => (s, true)
  | some sent =>
  let s := setSlot s "shakespeare-sent-pos" (.width (jsMulOpt sent.positive 100))
  let s := setSlot s "shakespeare-sent-pos-val"
    (.text (jsToFixedOpt (jsMulOpt sent.positive 100) 1 ++ "%"))
  let s := setSlot s "shakespeare-sent-neg" (.width (jsMulOpt sent.negative 100))
  let s := setSlot s "shakespeare-sent-neg-val"
    (.text (jsToFixedOpt (jsMulOpt sent.negative 100) 1 ++ "%"))
  let s := setSlot s "shakespeare-sent-neu" (.width (jsMulOpt sent.neutral 100))
  let s := setSlot s "shakespeare-sent-neu-val"
    (.text (jsToFixedOpt (jsMulOpt sent.neutral 100) 1 ++ "%"))
  match sent.compound with
  | none => (s, true)
  | some cp =>
  let s := setSlot s "shakespeare-sent-compound" (.text (jsToFixed cp 3))
  match td.top_words with
  | none => (s, true)
  | some ws =>
  ({ s with shakespeareTopWords :=
      s.shakespeareTopWords ++ (ws.take 30).map mkWordItem }, false)

/-! ## Venn chart renderer -/

/-- The SVG children createVennDiagram appends, in document order
(src/app.js lines 151-231).  The renderer reads exactly three fields of
the comparison record: unique_to_folkard, unique_to_shakespeare and
total_shared_words; everything else about the diagram is fixed. -/
def vennElems (uniqueToFolkard uniqueToShakespeare totalShared : Int) :
    List SvgElem :=
  let width : ℚ := 600
  let height : ℚ := 400
  let radius : ℚ := 120
  let circleSpacing : ℚ := 80
  let folkardX := width / 2 - circleSpacing
  let folkardY := height / 2
  let shakespeareX := width / 2 + circleSpacing
  let shakespeareY := height / 2
  [ .svgRoot width height,
    .circle folkardX folkardY radius "venn-circle" "#8A9A8B",
    .circle shakespeareX shakespeareY radius "venn-circle" "#B08F8F",
    .text (folkardX - 70) (folkardY - radius - 20) "venn-label" "middle"
      none none "Folkard",
    .text (shakespeareX + 70) (shakespeareY - radius - 20) "venn-label" "middle"
      none none "Shakespeare",
    .text (folkardX - 70) folkardY "venn-count" "middle"
      none none (toLocaleString uniqueToFolkard),
    .text (shakespeareX + 70) shakespeareY "venn-count" "middle"
      none none (toLocaleString uniqueToShakespeare),
    .text (width / 2) (height / 2) "venn-count" "middle"
      (some "#6B394A") none (toLocaleString totalShared),
    .text (width / 2) (height / 2 + 30) "venn-label" "middle"
      none (some "12px") "Shared" ]

/-- Embedding of createVennDiagram (src/app.js lines 143-232): the
overlap-chart container is emptied (container.innerHTML cleared) and the
fixed diagram is appended; the argument is the previous container
content, discarded by the clearing step. -/
def createVennDiagram (comparison : ComparisonStats) (_container : List SvgElem) :
    List SvgElem :=
  let cleared : List SvgElem := []
  cleared ++ vennElems comparison.unique_to_folkard
    comparison.unique_to_shakespeare comparison.total_shared_words

/-- Embedding of populateComparisonView (src/app.js lines 116-140): writes
the overlap slots, redraws the chart, then appends the first 30
top_shared_words entries to the shared-words container. -/
def populateComparisonView (d : DDoc) (s : DomState) : DomState × Bool :=
  match d.comparison with
  | none => (s, true)
  | some c =>
  match c.overlap_percentage with
  | none => (s, true)
  | some op =>
  let s := setSlot s "overlap-percent" (.text (jsToFixed op 2 ++ "%"))
  match c.total_shared_words with
  | none => (s, true)
  | some tsw =>
  match c.unique_to_folkard with
  | none => (s, true)
  | some uf =>
  match c.unique_to_shakespeare with
  | none => (s, true)
  | some us =>
  let s := setSlot s "overlap-detail"
    (.text (toLocaleString tsw ++ " shared words • "
      ++ toLocaleString uf ++ " unique to Folkard • "
      ++ toLocaleString us ++ " unique to Shakespeare"))
  let s := { s with overlapChart := vennElems uf us tsw }
  match c.top_shared_words with
  | none => (s, true)
  | some ws =>
  ({ s with sharedWords := s.sharedWords ++ (ws.take 30).map mkSharedItem }, false)

/-! ## Navigation controller -/

/-- The display property of a view container: unset is whatever the
default layout gives before the script ever touches the element. -/
inductive DisplayVal where
  | hidden
  | block
  | unset
  deriving DecidableEq, Repr

/-- The navigation state: the nav buttons keyed by their data-view name
with their active flag, and the text-view containers keyed by element id
with their display value. -/
structure NavState where
  buttons : List (String × Bool)
  views : List (String × DisplayVal)
  deriving DecidableEq, Repr

/-- Embedding of the click handler installed by setupNavigation
(src/app.js lines 31-41) for the button whose data-view is v: every
button loses the active class and the clicked one gains it, every
text-view container is hidden, then the container with id view-v is
shown.  The Bool records the TypeError raised when no container has that
id (getElementById gives null); the hiding already performed persists. -/
def selectView (v : String) (s : NavState) : NavState × Bool :=
  let buttons := s.buttons.map fun b => (b.1, b.1 == v)
  let hidden := s.views.map fun p => (p.1, DisplayVal.hidden)
  if s.views.any (fun p => p.1 == "view-" ++ v) then
    (⟨buttons, hidden.map fun p =>
      if p.1 == "view-" ++ v then (p.1, DisplayVal.block) else p⟩, false)
  else
    (⟨buttons, hidden⟩, true)

/-! ## Loader and initialization -/

/-- What the script can observe of the fetch: either the promise rejects
(network/transport error), or a response arrives carrying an HTTP status
and the outcome of response.json() — none when the body is not valid
JSON, otherwise the parsed value. -/
inductive FetchOutcome where
  | transportError
  | response (status : Nat) (body : Option DDoc)
  deriving DecidableEq, Repr

/-- The portion of the DOMContentLoaded handler up to and including the
assignment to the analysisData global: the loader yields a document
exactly when the fetch resolved and the body parsed as JSON; the HTTP
status is never consulted. -/
def loadAnalysisData : FetchOutcome → Option DDoc
  | .transportError => none
  | .response _ body => body

/-- The observable outcome of one initialization run. -/
structure InitResult where
  dom : DomState
  loadedData : Option DDoc
  errorLogged : Bool
  alertShown : Bool
  navAttached : Bool
  deriving DecidableEq, Repr

/-- Embedding of the DOMContentLoaded handler (src/app.js lines 7-23):
fetch and parse inside the try block, then the three populators and
setupNavigation in order; any throw — from the fetch, the JSON parse or a
populator — lands in the catch, which logs the error and shows a blocking
alert.  There is no retry: the handler consumes one fetch outcome. -/
def initApp (f : FetchOutcome) (s : DomState) : InitResult :=
  match f with
  | .transportError => ⟨s, none, true, true, false⟩
  | .response _ none => ⟨s, none, true, true, false⟩
  | .response _ (some d) =>
    match populateFolkardView d s with
    | (s1, true) => ⟨s1, some d, true, true, false⟩
    | (s1, false) =>
      match populateShakespeareView d s1 with
      | (s2, true) => ⟨s2, some d, true, true, false⟩
      | (s2, false) =>
        match populateComparisonView d s2 with
        | (s3, true) => ⟨s3, some d, true, true, false⟩
        | (s3, false) => ⟨s3, some d, false, false, true⟩

/-! ## Auxiliary predicates and sample data -/

/-- True of the circle elements of a diagram. -/
def SvgElem.isCircle : SvgElem → Bool
  | .circle _ _ _ _ _ => true
  | _ => false

/-- The geometric content of an SVG element: everything except the
displayed text. -/
def elemGeometry : SvgElem → SvgElem
  | .text x y cls anchor fill fs _ => .text x y cls anchor fill fs ""
  | e => e

/-- The three sentiment fractions of a record all lie in the unit
interval. -/
def SentimentBreakdown.fracsInRange (sb : SentimentBreakdown) : Prop :=
  0 ≤ sb.positive ∧ sb.positive ≤ 1 ∧ 0 ≤ sb.negative ∧ sb.negative ≤ 1
    ∧ 0 ≤ sb.neutral ∧ sb.neutral ≤ 1

instance (sb : SentimentBreakdown) : Decidable sb.fracsInRange := by
  unfold SentimentBreakdown.fracsInRange
  infer_instance

/-- Sample statistics for the first corpus (the values of spec section 8,
property 6). -/
def sampleT0 : TextStats :=
  ⟨150000, 12000, (8 : ℚ) / 100,
    ⟨(2 : ℚ) / 10, (1 : ℚ) / 10, (7 : ℚ) / 10, (15 : ℚ) / 100⟩,
    [⟨"rose", 500⟩]⟩

/-- Sample statistics for the second corpus. -/
def sampleT1 : TextStats :=
  ⟨80000, 9000, (1125 : ℚ) / 10000,
    ⟨(3 : ℚ) / 10, (2 : ℚ) / 10, (5 : ℚ) / 10, (-5 : ℚ) / 100⟩,
    [⟨"flower", 321⟩]⟩

/-- Sample comparison statistics (the values of spec section 8,
property 7). -/
def sampleC : ComparisonStats :=
  ⟨(3333 : ℚ) / 100, 2000, 5000, 3000, [⟨"garden", 42⟩]⟩

/-- A parsed JSON document that is valid JSON but not of the expected
AnalysisDocument shape: its texts list has a single (well-formed) entry
and the comparison record is absent. -/
def dBadDoc : DDoc := ⟨some [sampleT0.toDyn], none⟩

/-- Sample navigation state: three nav buttons and their three view
containers. -/
def navSample : NavState :=
  ⟨[("folkard", true), ("shakespeare", false), ("comparison", false)],
    [("view-folkard", .block), ("view-shakespeare", .hidden),
      ("view-comparison", .hidden)]⟩

attribute [ext] NavState

/-! ## Helper lemmas -/

/-- On a document of the expected shape the folkard populator appends the
first 30 top_words entries and changes nothing else in that container. -/
lemma folkard_topWords_run (t0 t1 : TextStats) (c : ComparisonStats)
    (s : DomState) :
    (populateFolkardView (mkDoc t0 t1 c) s).1.folkardTopWords
      = s.folkardTopWords
        ++ ((t0.top_words.map WordCount.toDyn).take 30).map mkWordItem := rfl

/-- On a document of the expected shape the shakespeare populator appends
the first 30 top_words entries of texts[1]. -/
lemma shakespeare_topWords_run (t0 t1 : TextStats) (c : ComparisonStats)
    (s : DomState) :
    (populateShakespeareView (mkDoc t0 t1 c) s).1.shakespeareTopWords
      = s.shakespeareTopWords
        ++ ((t1.top_words.map WordCount.toDyn).take 30).map mkWordItem := rfl

/-- On a document of the expected shape the comparison populator appends
the first 30 top_shared_words entries. -/
lemma shared_words_run (t0 t1 : TextStats) (c : ComparisonStats)
    (s : DomState) :
    (populateComparisonView (mkDoc t0 t1 c) s).1.sharedWords
      = s.sharedWords
        ++ ((c.top_shared_words.map SharedWord.toDyn).take 30).map mkSharedItem := rfl

/-- The nav click handler sets exactly the clicked button active. -/
lemma selectView_buttons (v : String) (s : NavState) :
    (selectView v s).1.buttons = s.buttons.map fun b => (b.1, b.1 == v) := by
  unfold selectView
  split <;> rfl

/-- The nav click handler leaves each container hidden except view-v,
which is shown when such a container exists. -/
lemma selectView_views (v : String) (s : NavState) :
    (selectView v s).1.views = s.views.map fun p =>
      (p.1, if p.1 == "view-" ++ v && s.views.any (fun q => q.1 == "view-" ++ v)
        then DisplayVal.block else DisplayVal.hidden) := by
  unfold selectView
  split
  · rename_i h
    dsimp only
    rw [List.map_map]
    refine List.map_congr_left ?_
    intro p hp
    simp only [Function.comp_apply, h, Bool.and_true]
    cases hc : (p.1 == "view-" ++ v) <;> simp [hc]
  · rename_i h
    rw [Bool.not_eq_true] at h
    dsimp only
    refine List.map_congr_left ?_
    intro p hp
    simp [h]

/-- The set of container ids, and hence the presence test for view-v, is
unchanged by a navigation event. -/
lemma selectView_any (v : String) (s : NavState) :
    (selectView v s).1.views.any (fun q => q.1 == "view-" ++ v)
      = s.views.any (fun q => q.1 == "view-" ++ v) := by
  rw [selectView_views, List.any_map]
  rfl

/-- Navigation events are idempotent: selecting v again from the state a
selection of v produced gives the same state. -/
lemma selectView_idem (v : String) (s : NavState) :
    (selectView v (selectView v s).1).1 = (selectView v s).1 := by
  ext1
  · rw [selectView_buttons, selectView_buttons, List.map_map]
    simp [Function.comp]
  · rw [selectView_views v ((selectView v s).1)]
    simp only [selectView_any]
    rw [selectView_views v s, List.map_map]
    simp [Function.comp]

/-! ## Claim theorems -/

/-- Claim C10: the loader never inspects the HTTP status — the whole
initialization outcome is identical for any two statuses carried by the
same response body, any response whose body parses as JSON is accepted
and stored as the analysis document even under status 404, and a load
fails exactly when the fetch itself rejects or the body fails to parse
as JSON. -/
theorem c10_status_never_inspected (st1 st2 : Nat) (b : Option DDoc)
    (d : DDoc) (s : DomState) :
    initApp (.response st1 b) s = initApp (.response st2 b) s
    ∧ loadAnalysisData (.response st1 (some d)) = some d
    ∧ loadAnalysisData (.response st1 none) = none
    ∧ loadAnalysisData .transportError = none
    ∧ (initApp (.response 404 (some d)) s).loadedData = some d := by
  refine ⟨?_, rfl, rfl, rfl, ?_⟩
  · cases b <;> rfl
  · simp only [initApp]
    split
    · rfl
    · split
      · rfl
      · split <;> rfl

/-- Claim C1, amended: when the fetch itself fails, or the response body
cannot be parsed as JSON, initialization surfaces a blocking alert, logs
the error, attaches no navigation handlers, stores no document, and
leaves the DOM exactly as it was — no populator runs and no display slot
receives data.  (When the body parses as JSON but lacks the expected
AnalysisDocument structure the error is still surfaced and logged with no
retry, but populators may already have written some slots; see the
counterexample.) -/
theorem c1_fetch_or_parse_failure_clean (s : DomState) (st : Nat) :
    initApp .transportError s = ⟨s, none, true, true, false⟩
    ∧ initApp (.response st none) s = ⟨s, none, true, true, false⟩ :=
  ⟨rfl, rfl⟩

/-- Claim C1, counterexample: a response whose body parses as JSON but is
not of the expected AnalysisDocument shape (one text entry, no comparison
record) still surfaces the error, yet the folkard display slots have
already received data — incomplete UI state exists, contradicting the claim
that no display slot of any view receives data on such a failure. -/
theorem c1_counterexample :
    wellFormedDoc dBadDoc = false
    ∧ (initApp (.response 200 (some dBadDoc)) emptyDom).alertShown = true
    ∧ (initApp (.response 200 (some dBadDoc)) emptyDom).errorLogged = true
    ∧ getSlot (initApp (.response 200 (some dBadDoc)) emptyDom).dom
        "folkard-total-words" = some (.text "150,000")
    ∧ (initApp (.response 200 (some dBadDoc)) emptyDom).dom ≠ emptyDom := by
  refine ⟨rfl, rfl, rfl, ?_, ?_⟩ <;> decide

/-- Claim C2, amended: for every comparison record the renderer draws the
locale-formatted unique counts at the vertical center height of the
circles, but horizontally offset 70 units outward from each circle
center (left count at 150 for the circle centered at 220, right count at
450 for the circle centered at 380), not at the center points. -/
theorem c2_counts_beside_circles (c : ComparisonStats) (k : List SvgElem) :
    (createVennDiagram c k).get? 1
      = some (.circle (600 / 2 - 80) (400 / 2) 120 "venn-circle" "#8A9A8B")
    ∧ (createVennDiagram c k).get? 2
      = some (.circle (600 / 2 + 80) (400 / 2) 120 "venn-circle" "#B08F8F")
    ∧ (createVennDiagram c k).get? 5
      = some (.text (600 / 2 - 80 - 70) (400 / 2) "venn-count" "middle"
          none none (toLocaleString c.unique_to_folkard))
    ∧ (createVennDiagram c k).get? 6
      = some (.text (600 / 2 + 80 + 70) (400 / 2) "venn-count" "middle"
          none none (toLocaleString c.unique_to_shakespeare))
    ∧ ((600 / 2 - 80 : ℚ) = 220 ∧ (600 / 2 + 80 : ℚ) = 380
        ∧ (600 / 2 - 80 - 70 : ℚ) = 150 ∧ (600 / 2 + 80 + 70 : ℚ) = 450) := by
  refine ⟨rfl, rfl, rfl, rfl, ?_⟩
  refine ⟨by decide, by decide, by decide, by decide⟩

/-- Claim C2, counterexample: on the sample comparison record the first
count text is drawn at x = 150 while the first circle is centered at
x = 220, so the count is not positioned at the center point of its
circle. -/
theorem c2_counterexample :
    (createVennDiagram sampleC []).get? 1
      = some (.circle 220 200 120 "venn-circle" "#8A9A8B")
    ∧ (createVennDiagram sampleC []).get? 5
      = some (.text 150 200 "venn-count" "middle" none none "5,000")
    ∧ (150 : ℚ) ≠ 220 := by
  refine ⟨?_, ?_, ?_⟩ <;> decide

/-- Claim C5: the chart renderer clears its container before drawing, so
rendering twice with the same comparison input gives exactly the state of
rendering once — a single diagram holding two circles and nine elements
in all, with no duplication. -/
theorem c5_renderer_idempotent (c : ComparisonStats) (k : List SvgElem) :
    createVennDiagram c (createVennDiagram c k) = createVennDiagram c k
    ∧ ((createVennDiagram c k).countP SvgElem.isCircle) = 2
    ∧ (createVennDiagram c k).length = 9 := by
  refine ⟨rfl, ?_, rfl⟩
  rfl

/-- Claim C8: the Venn geometry is data-independent — any two comparison
inputs give element-wise identical geometry (same canvas 600 by 400, same
two circles of radius 120 centered vertically and offset 80 from the
horizontal center in opposite directions); only the text contents of the
count elements vary with the data. -/
theorem c8_geometry_data_independent (c1 c2 : ComparisonStats)
    (k1 k2 : List SvgElem) :
    (createVennDiagram c1 k1).map elemGeometry
      = (createVennDiagram c2 k2).map elemGeometry
    ∧ (createVennDiagram c1 k1).get? 0 = some (.svgRoot 600 400)
    ∧ (createVennDiagram c1 k1).get? 1
      = some (.circle (600 / 2 - 80) (400 / 2) 120 "venn-circle" "#8A9A8B")
    ∧ (createVennDiagram c1 k1).get? 2
      = some (.circle (600 / 2 + 80) (400 / 2) 120 "venn-circle" "#B08F8F") := by
  exact ⟨rfl, rfl, rfl, rfl⟩

/-- Claim C6: the comparison populator renders overlap_percentage with
exactly two decimals and a percent sign, and one summary line joining the
three locale-formatted counts with the fixed connective text; on the
sample values the line reads exactly as the spec example. -/
theorem c6_overlap_slots (t0 t1 : TextStats) (c : ComparisonStats)
    (s : DomState) :
    getSlot (populateComparisonView (mkDoc t0 t1 c) s).1 "overlap-percent"
      = some (.text (jsToFixed c.overlap_percentage 2 ++ "%"))
    ∧ getSlot (populateComparisonView (mkDoc t0 t1 c) s).1 "overlap-detail"
      = some (.text (toLocaleString c.total_shared_words ++ " shared words • "
          ++ toLocaleString c.unique_to_folkard ++ " unique to Folkard • "
          ++ toLocaleString c.unique_to_shakespeare ++ " unique to Shakespeare"))
    ∧ toLocaleString 2000 ++ " shared words • " ++ toLocaleString 5000
          ++ " unique to Folkard • " ++ toLocaleString 3000
          ++ " unique to Shakespeare"
        = "2,000 shared words • 5,000 unique to Folkard • 3,000 unique to Shakespeare" := by
  refine ⟨rfl, rfl, ?_⟩
  decide

/-- Claim C3: on a loaded document of the expected shape each populator
renders its word list in the given order truncated to the first 30
entries (no re-sorting, items appended in order), finishes without
error, and a list of at most 30 entries is rendered in full. -/
theorem c3_lists_order_and_truncation (t0 t1 : TextStats)
    (c : ComparisonStats) (s : DomState) :
    (populateFolkardView (mkDoc t0 t1 c) s).1.folkardTopWords
      = s.folkardTopWords
        ++ (t0.top_words.take 30).map (fun w => mkWordItem w.toDyn)
    ∧ (populateFolkardView (mkDoc t0 t1 c) s).2 = false
    ∧ (populateShakespeareView (mkDoc t0 t1 c) s).1.shakespeareTopWords
      = s.shakespeareTopWords
        ++ (t1.top_words.take 30).map (fun w => mkWordItem w.toDyn)
    ∧ (populateShakespeareView (mkDoc t0 t1 c) s).2 = false
    ∧ (populateComparisonView (mkDoc t0 t1 c) s).1.sharedWords
      = s.sharedWords
        ++ (c.top_shared_words.take 30).map (fun w => mkSharedItem w.toDyn)
    ∧ (populateComparisonView (mkDoc t0 t1 c) s).2 = false
    ∧ (t0.top_words.length ≤ 30 → t0.top_words.take 30 = t0.top_words)
    ∧ (c.top_shared_words.length ≤ 30 →
        c.top_shared_words.take 30 = c.top_shared_words) := by
  refine ⟨?_, rfl, ?_, rfl, ?_, rfl, ?_, ?_⟩
  · rw [folkard_topWords_run]
    simp only [List.map_take, List.map_map]
    rfl
  · rw [shakespeare_topWords_run]
    simp only [List.map_take, List.map_map]
    rfl
  · rw [shared_words_run]
    simp only [List.map_take, List.map_map]
    rfl
  · intro h
    exact List.take_of_length_le h
  · intro h
    exact List.take_of_length_le h

/-- Claim C3 witness: the sample document has one-entry lists, which are
rendered in full without error. -/
theorem c3_witness :
    sampleT0.top_words.length ≤ 30
    ∧ (populateFolkardView (mkDoc sampleT0 sampleT1 sampleC) emptyDom).1.folkardTopWords
      = (sampleT0.top_words.take 30).map (fun w => mkWordItem w.toDyn) :=
  ⟨by decide,
    (c3_lists_order_and_truncation sampleT0 sampleT1 sampleC emptyDom).1⟩

/-- Claim C9: the populators never clear their word containers — one run
appends exactly the first 30 entries after whatever the container already
held, so two runs on the same document leave the container with twice the
new entries on top of the original content (populators are not
idempotent). -/
theorem c9_populators_append_only (t0 t1 : TextStats) (c : ComparisonStats)
    (s : DomState) :
    (populateFolkardView (mkDoc t0 t1 c) s).1.folkardTopWords
      = s.folkardTopWords
        ++ ((t0.top_words.map WordCount.toDyn).take 30).map mkWordItem
    ∧ ((populateFolkardView (mkDoc t0 t1 c)
          (populateFolkardView (mkDoc t0 t1 c) s).1).1.folkardTopWords).length
      = s.folkardTopWords.length + 2 * min t0.top_words.length 30
    ∧ ((populateShakespeareView (mkDoc t0 t1 c)
          (populateShakespeareView (mkDoc t0 t1 c) s).1).1.shakespeareTopWords).length
      = s.shakespeareTopWords.length + 2 * min t1.top_words.length 30
    ∧ ((populateComparisonView (mkDoc t0 t1 c)
          (populateComparisonView (mkDoc t0 t1 c) s).1).1.sharedWords).length
      = s.sharedWords.length + 2 * min c.top_shared_words.length 30 := by
  refine ⟨folkard_topWords_run t0 t1 c s, ?_, ?_, ?_⟩
  · rw [folkard_topWords_run, folkard_topWords_run]
    simp only [List.length_append, List.length_map, List.length_take]
    omega
  · rw [shakespeare_topWords_run, shakespeare_topWords_run]
    simp only [List.length_append, List.length_map, List.length_take]
    omega
  · rw [shared_words_run, shared_words_run]
    simp only [List.length_append, List.length_map, List.length_take]
    omega

/-- Claim C4: for each of the three sentiment fractions of either corpus
(all in the unit interval), the populator writes the bar width as exactly
the fraction times 100 percent and the label as the same value rounded to
one decimal with a percent suffix, so width and label always agree. -/
theorem c4_sentiment_width_label (t0 t1 : TextStats) (c : ComparisonStats)
    (s : DomState) (_h0 : t0.sentiment.fracsInRange)
    (_h1 : t1.sentiment.fracsInRange) :
    getSlot (populateFolkardView (mkDoc t0 t1 c) s).1 "folkard-sent-pos"
      = some (.width (some (t0.sentiment.positive * 100)))
    ∧ getSlot (populateFolkardView (mkDoc t0 t1 c) s).1 "folkard-sent-pos-val"
      = some (.text (jsToFixed (t0.sentiment.positive * 100) 1 ++ "%"))
    ∧ getSlot (populateFolkardView (mkDoc t0 t1 c) s).1 "folkard-sent-neg"
      = some (.width (some (t0.sentiment.negative * 100)))
    ∧ getSlot (populateFolkardView (mkDoc t0 t1 c) s).1 "folkard-sent-neg-val"
      = some (.text (jsToFixed (t0.sentiment.negative * 100) 1 ++ "%"))
    ∧ getSlot (populateFolkardView (mkDoc t0 t1 c) s).1 "folkard-sent-neu"
      = some (.width (some (t0.sentiment.neutral * 100)))
    ∧ getSlot (populateFolkardView (mkDoc t0 t1 c) s).1 "folkard-sent-neu-val"
      = some (.text (jsToFixed (t0.sentiment.neutral * 100) 1 ++ "%"))
    ∧ getSlot (populateShakespeareView (mkDoc t0 t1 c) s).1 "shakespeare-sent-pos"
      = some (.width (some (t1.sentiment.positive * 100)))
    ∧ getSlot (populateShakespeareView (mkDoc t0 t1 c) s).1 "shakespeare-sent-pos-val"
      = some (.text (jsToFixed (t1.sentiment.positive * 100) 1 ++ "%"))
    ∧ getSlot (populateShakespeareView (mkDoc t0 t1 c) s).1 "shakespeare-sent-neg"
      = some (.width (some (t1.sentiment.negative * 100)))
    ∧ getSlot (populateShakespeareView (mkDoc t0 t1 c) s).1 "shakespeare-sent-neg-val"
      = some (.text (jsToFixed (t1.sentiment.negative * 100) 1 ++ "%"))
    ∧ getSlot (populateShakespeareView (mkDoc t0 t1 c) s).1 "shakespeare-sent-neu"
      = some (.width (some (t1.sentiment.neutral * 100)))
    ∧ getSlot (populateShakespeareView (mkDoc t0 t1 c) s).1 "shakespeare-sent-neu-val"
      = some (.text (jsToFixed (t1.sentiment.neutral * 100) 1 ++ "%")) :=
  ⟨rfl, rfl, rfl, rfl, rfl, rfl, rfl, rfl, rfl, rfl, rfl, rfl⟩

/-- Claim C4 witness: on the sample document the positive fraction 0.2
gives a bar width of 20 percent and the label 20.0 percent. -/
theorem c4_witness :
    sampleT0.sentiment.fracsInRange
    ∧ getSlot (populateFolkardView (mkDoc sampleT0 sampleT1 sampleC) emptyDom).1
        "folkard-sent-pos" = some (.width (some 20))
    ∧ getSlot (populateFolkardView (mkDoc sampleT0 sampleT1 sampleC) emptyDom).1
        "folkard-sent-pos-val" = some (.text "20.0%") :=
  ⟨by decide,
    Eq.trans
      (c4_sentiment_width_label sampleT0 sampleT1 sampleC emptyDom
        (by decide) (by decide)).1 (by decide),
    Eq.trans
      ((c4_sentiment_width_label sampleT0 sampleT1 sampleC emptyDom
        (by decide) (by decide)).2).1 (by decide)⟩

/-- Claim C7: a navigation selection of view v marks exactly the selector
for v active and all others inactive, hides every view container except
view-v which is shown (when present), and is idempotent — selecting v
again from the resulting state reproduces that state exactly, so
re-selecting the visible view is a no-op in effect. -/
theorem c7_navigation_transition (v : String) (s : NavState) :
    (selectView v s).1.buttons = s.buttons.map (fun b => (b.1, b.1 == v))
    ∧ (selectView v s).1.views = s.views.map (fun p =>
        (p.1, if p.1 == "view-" ++ v
              && s.views.any (fun q => q.1 == "view-" ++ v)
          then DisplayVal.block else DisplayVal.hidden))
    ∧ (selectView v (selectView v s).1).1 = (selectView v s).1 :=
  ⟨selectView_buttons v s, selectView_views v s, selectView_idem v s⟩

end PlantLore
